import Mathlib

/-!
# Verification of the ShopEase agentic-analyst orchestration core

Shallow embedding of the repository `ShopEase_Agent` (files `src/agent.py`,
`src/rag.py`, `src/tools.py`).  The embedding models:

* the keyword containment primitives used by both the planner and the
  knowledge base (Python `str.lower` and the `in` substring test);
* the knowledge-base retrieval `BusinessKnowledgeBase.retrieve_context`;
* the rule-based fallback planner `ShopEaseAnalyst._mock_process_query`,
  parameterised over the tool registry (the analytic tool bodies are
  external: each registry entry is an opaque result string) and producing
  an observable event trace alongside the composed response;
* the mode-selecting initialiser `ShopEaseAnalyst.__init__` and the
  router `ShopEaseAnalyst.process_query`, with the external LangChain
  capability abstracted as a fallible function from query to output.
-/

namespace ShopEase

/-- Python's `s.lower()` on the character list of a string
(ASCII lowering, as `Char.toLower` performs). -/
def lowerStr (s : String) : String :=
  ⟨s.data.map Char.toLower⟩

/-- Python's substring test `kw in s` (`True` iff `kw` occurs contiguously
inside `s`). -/
def containsKw (s kw : String) : Bool :=
  decide (kw.data <:+: s.data)

/-- Python's `s.startswith(pre)`. -/
def startswith (s pre : String) : Bool :=
  pre.data.isPrefixOf s.data

/-- `t` occurs as a contiguous substring of `s` (propositional form,
used to state containment facts about composed responses). -/
def SubstrOf (t s : String) : Prop :=
  t.data <:+: s.data

/-! ## Knowledge base (`src/rag.py`, `BusinessKnowledgeBase`) -/

/-- `self.documents["background"]` of `rag.py`. -/
def documents_background : String :=
  "ShopEase is a mid-size E-commerce Platform in India operating D2C + Marketplace models. Categories: Electronics, Fashion, Home & Kitchen, Beauty."

/-- `self.documents["problem"]` of `rag.py`. -/
def documents_problem : String :=
  "Leadership is concerned about increasing customer churn and declining repeat purchase rates, particularly from paid channels."

/-- `self.documents["hypotheses"]` of `rag.py`. -/
def documents_hypotheses : String :=
  "Leadership suspects poor delivery experience, discount dependency, and low post-purchase engagement are contributing factors."

/-- `self.documents["constraints"]` of `rag.py`. -/
def documents_constraints : String :=
  "Marketing budget is capped. Heavy discounting is discouraged. Focus on operational or engagement improvements."

/-- The `relevant_docs` list built by `retrieve_context` (rag.py lines 17-34):
the query is lowered, then each of the three keyword rules independently
appends its document, and `background` is the fallback when none matched. -/
def relevant_docs (query : String) : List String :=
  let q := lowerStr query
  let docs :=
    (if containsKw q "churn" || containsKw q "problem" then [documents_problem] else [])
    ++ (if containsKw q "delivery" || containsKw q "discount" || containsKw q "suspect" then [documents_hypotheses] else [])
    ++ (if containsKw q "budget" || containsKw q "cost" then [documents_constraints] else [])
  if docs.isEmpty then [documents_background] else docs

/-- `BusinessKnowledgeBase.retrieve_context` (rag.py line 36):
the matched documents joined with a newline. -/
def retrieve_context (query : String) : String :=
  String.intercalate "\n" (relevant_docs query)

/-! ## Tool registry (`src/tools.py`)

The seven analytic tools dispatched by the fallback planner are external
capabilities invoked with no arguments (`tool.invoke({})`); each returns an
opaque result string (possibly an error description such as
`"Error: Data not loaded."`).  The registry therefore maps each tool name to
its result string, plus the knowledge-base lookup `get_business_context`,
which is a function of the query. -/

/-- The seven zero-argument tools the fallback planner can dispatch. -/
inductive ToolName
  | get_data_summary
  | analyze_delivery_impact
  | analyze_channel_performance
  | analyze_city_performance
  | analyze_demographics
  | analyze_engagement
  | train_predictive_model
deriving DecidableEq, Repr

/-- The registry of external capabilities available to the agent:
the knowledge-base lookup plus one result string per analytic tool. -/
structure ToolRegistry where
  get_business_context : String → String
  get_data_summary : String
  analyze_delivery_impact : String
  analyze_channel_performance : String
  analyze_city_performance : String
  analyze_demographics : String
  analyze_engagement : String
  train_predictive_model : String

/-- Result string returned by invoking the named registry entry. -/
def tool_result (reg : ToolRegistry) : ToolName → String
  | .get_data_summary => reg.get_data_summary
  | .analyze_delivery_impact => reg.analyze_delivery_impact
  | .analyze_channel_performance => reg.analyze_channel_performance
  | .analyze_city_performance => reg.analyze_city_performance
  | .analyze_demographics => reg.analyze_demographics
  | .analyze_engagement => reg.analyze_engagement
  | .train_predictive_model => reg.train_predictive_model

/-! ## Fallback planner (`src/agent.py`, `_mock_process_query`) -/

/-- Observable actions of the fallback planner: the knowledge-base lookup
(recording the raw query passed in and the context retrieved) and the tool
invocation (which carries no arguments, as in `tool.invoke({})`). -/
inductive Event
  | kbRetrieve (query : String) (context : String)
  | toolCall (tool : ToolName)
deriving Repr

/-- The if/elif keyword-routing chain of `_mock_process_query`
(agent.py lines 99-128) applied to the lowered query `q`: which tool is
invoked and the final value of `plan` (initialised to `"check context"`;
the `gender`/`demograph`, `visit`/`engage` and default branches leave it
unchanged). -/
def route (q : String) : ToolName × String :=
  if containsKw q "delivery" then
    (.analyze_delivery_impact, "investigate delivery times")
  else if containsKw q "channel" then
    (.analyze_channel_performance, "check acquisition channels")
  else if containsKw q "city" || containsKw q "region" then
    (.analyze_city_performance, "check city breaks")
  else if containsKw q "gender" || containsKw q "demograph" then
    (.analyze_demographics, "check context")
  else if containsKw q "visit" || containsKw q "engage" then
    (.analyze_engagement, "check context")
  else if containsKw q "model" || containsKw q "predict" || containsKw q "driver" then
    (.train_predictive_model, "train ML model")
  else
    (.get_data_summary, "check context")

/-- The fixed recommendation footer of the mock response template
(agent.py lines 137-138). -/
def recommendation_footer : String :=
  "Recommendation:\n(Simulated) Please investigate the highlighted metrics above, specifically targeting high-churn segments."

/-- The `final_response` f-string template of `_mock_process_query`
(agent.py lines 130-140). -/
def final_response (plan result : String) : String :=
  ("\n--- AGENT RESPONSE (MOCK MODE) ---\nBased on the Mock Logic: The user asked about \x27"
      ++ plan ++ "\x27.\n\nAnalysis Result:\n")
    ++ result
    ++ ("\n\n" ++ recommendation_footer ++ "\n----------------------\n")

/-- `ShopEaseAnalyst._mock_process_query` (agent.py lines 91-141): consult
the knowledge base with the raw query, lower the query, route it through the
keyword chain to one tool, and compose the templated response from the plan
label and the tool's result.  Returns the event trace together with the
response string. -/
def mock_process_query (reg : ToolRegistry) (query : String) : List Event × String :=
  let context := reg.get_business_context query
  let q := lowerStr query
  let tool := (route q).1
  let plan := (route q).2
  let result := tool_result reg tool
  ([Event.kbRetrieve query context, Event.toolCall tool], final_response plan result)

/-! ## Router / mode selection (`src/agent.py`, `__init__` and
`process_query`) -/

/-- Outcome of attempting to construct the LangChain OpenAI agent
(agent.py lines 48-73): success yields an executor (an external fallible
capability from query to output), or the attempt fails with an
`ImportError` or any other exception. -/
inductive InitOutcome
  | ok (exec : String → Except String String)
  | importError
  | otherError (msg : String)

/-- The agent's mode after initialisation: `mock` (`use_mock = True`) or
`primary` holding the constructed `agent_executor`
(`use_mock = False`). -/
inductive AgentMode
  | mock
  | primary (exec : String → Except String String)

/-- Result of `__init__`: the selected mode, and whether the body of the
`else:` branch (construction of the Primary-mode capability, agent.py
lines 48-67) was entered at all. -/
structure InitResult where
  mode : AgentMode
  attempted_construction : Bool

/-- `ShopEaseAnalyst.__init__` mode selection (agent.py lines 40-73):
`api_key = os.getenv("OPENAI_API_KEY")` is absent (`None`) or a string;
`if not api_key or api_key.startswith("paste_your")` selects mock mode
without attempting construction; otherwise construction is attempted and
any failure (ImportError or other exception) also selects mock mode. -/
def agent_init (api_key : Option String) (construct : Unit → InitOutcome) : InitResult :=
  match api_key with
  | none => ⟨AgentMode.mock, false⟩
  | some k =>
    if k = "" || startswith k "paste_your" then
      ⟨AgentMode.mock, false⟩
    else
      match construct () with
      | .ok exec => ⟨AgentMode.primary exec, true⟩
      | .importError => ⟨AgentMode.mock, true⟩
      | .otherError _ => ⟨AgentMode.mock, true⟩

/-- `ShopEaseAnalyst.process_query` (agent.py lines 75-89): in mock mode
delegate to `_mock_process_query`; in primary mode invoke the executor and,
if it raises any exception, fall back to `_mock_process_query` instead of
propagating the failure. -/
def process_query (reg : ToolRegistry) (mode : AgentMode) (query : String) : String :=
  match mode with
  | .mock => (mock_process_query reg query).2
  | .primary exec =>
    match exec query with
    | .ok output => output
    | .error _ => (mock_process_query reg query).2

/-- A concrete registry used to instantiate universally quantified
statements: the real knowledge-base lookup plus stand-in result strings. -/
def sampleRegistry : ToolRegistry where
  get_business_context := retrieve_context
  get_data_summary := "Summary: 500 Customers"
  analyze_delivery_impact := "Delivery Analysis: Churned (6.1 days) vs Retained (3.9 days)."
  analyze_channel_performance := "Channel Analysis: table"
  analyze_city_performance := "Churn by City: table"
  analyze_demographics := "Churn by Gender: table"
  analyze_engagement := "Engagement: Churned (2.0) vs Retained (7.5) visits."
  train_predictive_model := "Model Trained. Top Factors: table"

/-! ## Helper lemmas on string containment -/

theorem data_append (s t : String) : (s ++ t).data = s.data ++ t.data := rfl

theorem substrOf_middle (a b c : String) : SubstrOf b (a ++ b ++ c) :=
  ⟨a.data, c.data, by simp [SubstrOf, data_append]⟩

theorem substrOf_append_left {t : String} (s u : String) (h : SubstrOf t s) :
    SubstrOf t (s ++ u) := by
  obtain ⟨x, y, e⟩ := h
  exact ⟨x, y ++ u.data, by simp [data_append, ← e]⟩

theorem substrOf_append_right {t : String} (s u : String) (h : SubstrOf t u) :
    SubstrOf t (s ++ u) := by
  obtain ⟨x, y, e⟩ := h
  exact ⟨s.data ++ x, y, by simp [data_append, ← e]⟩

/-- The composed mock response embeds its plan label, the tool result, and
the fixed recommendation footer. -/
theorem final_response_substr (plan result : String) :
    SubstrOf plan (final_response plan result)
      ∧ SubstrOf result (final_response plan result)
      ∧ SubstrOf recommendation_footer (final_response plan result) := by
  refine ⟨?_, ?_, ?_⟩
  · exact substrOf_append_left _ _ (substrOf_append_left _ _ (substrOf_middle _ _ _))
  · exact substrOf_middle _ _ _
  · exact substrOf_append_right _ _ (substrOf_middle _ _ _)

/-- A list guarded by an `isEmpty` fallback to a singleton is never empty. -/
theorem ite_isEmpty_ne_nil {α : Type} (l : List α) (b : α) :
    (if l.isEmpty then [b] else l) ≠ [] := by
  cases l <;> simp

/-- Updating only the knowledge-base entry of the registry leaves every
analytic tool's result unchanged. -/
theorem tool_result_kb_update (reg : ToolRegistry) (kb2 : String → String) (t : ToolName) :
    tool_result { reg with get_business_context := kb2 } t = tool_result reg t := by
  cases t <;> rfl

/-! ## Claim theorems -/

/-- C1: For every query processed while the agent is in Primary mode, if the
external LLM tool-calling invocation raises any exception, `process_query`
returns the Rule-Based Planner's (mock) response instead and never
propagates the failure to the caller. -/
theorem primary_failure_falls_back_to_mock (reg : ToolRegistry)
    (exec : String → Except String String) (query err : String)
    (h : exec query = Except.error err) :
    process_query reg (AgentMode.primary exec) query = (mock_process_query reg query).2 := by
  simp [process_query, h]

/-- Witness for C1: an executor that fails on every invocation still yields
the mock response through `process_query`. -/
theorem primary_failure_falls_back_to_mock_witness :
    (fun _ : String => (Except.error "boom" : Except String String)) "Does delivery time affect churn?"
        = Except.error "boom"
      ∧ process_query sampleRegistry
          (AgentMode.primary (fun _ => Except.error "boom")) "Does delivery time affect churn?"
        = (mock_process_query sampleRegistry "Does delivery time affect churn?").2 :=
  ⟨rfl, primary_failure_falls_back_to_mock sampleRegistry
    (fun _ => Except.error "boom") "Does delivery time affect churn?" "boom" rfl⟩

/-- C2: At initialization, if the credential environment value is absent or
starts with the placeholder prefix `"paste_your"`, the agent selects mock
mode and the Primary-mode LLM capability is never constructed. -/
theorem init_absent_or_placeholder_selects_mock (api_key : Option String)
    (construct : Unit → InitOutcome)
    (h : api_key = none ∨ ∃ k, api_key = some k ∧ startswith k "paste_your" = true) :
    (agent_init api_key construct).mode = AgentMode.mock
      ∧ (agent_init api_key construct).attempted_construction = false := by
  rcases h with h | ⟨k, hk, hpre⟩
  · subst h; exact ⟨rfl, rfl⟩
  · subst hk; simp [agent_init, hpre]

/-- Witness for C2: a placeholder credential selects mock mode without
entering the construction branch, even when construction would succeed. -/
theorem init_absent_or_placeholder_selects_mock_witness :
    (agent_init (some "paste_your_api_key_here")
        (fun _ => InitOutcome.ok fun q => Except.ok q)).mode = AgentMode.mock
      ∧ (agent_init (some "paste_your_api_key_here")
          (fun _ => InitOutcome.ok fun q => Except.ok q)).attempted_construction = false :=
  init_absent_or_placeholder_selects_mock (some "paste_your_api_key_here")
    (fun _ => InitOutcome.ok fun q => Except.ok q)
    (Or.inr ⟨"paste_your_api_key_here", rfl, by decide⟩)

/-- C3: For every query whose lower-cased text contains both `"delivery"`
and `"channel"`, the fallback planner routes to the delivery branch: the
delivery-impact tool is invoked (not the channel tool) and the plan label is
the delivery one — the first matching rule wins. -/
theorem delivery_beats_channel (reg : ToolRegistry) (query : String)
    (h1 : containsKw (lowerStr query) "delivery" = true)
    (h2 : containsKw (lowerStr query) "channel" = true) :
    route (lowerStr query) = (ToolName.analyze_delivery_impact, "investigate delivery times")
      ∧ (mock_process_query reg query).1
        = [Event.kbRetrieve query (reg.get_business_context query),
           Event.toolCall ToolName.analyze_delivery_impact] := by
  constructor
  · simp [route, h1]
  · simp [mock_process_query, route, h1]

/-- Witness for C3: a query mentioning both delivery and channel dispatches
the delivery-impact tool. -/
theorem delivery_beats_channel_witness :
    containsKw (lowerStr "Does delivery affect our channel performance?") "delivery" = true
      ∧ containsKw (lowerStr "Does delivery affect our channel performance?") "channel" = true
      ∧ route (lowerStr "Does delivery affect our channel performance?")
          = (ToolName.analyze_delivery_impact, "investigate delivery times") :=
  ⟨by decide, by decide,
    (delivery_beats_channel sampleRegistry "Does delivery affect our channel performance?"
      (by decide) (by decide)).1⟩

/-- C4: For every query whose lower-cased text contains none of the keywords
of the six intent rules, the fallback planner dispatches the data-summary
tool (the default path). -/
theorem no_keyword_dispatches_summary (reg : ToolRegistry) (query : String)
    (hdel : containsKw (lowerStr query) "delivery" = false)
    (hcha : containsKw (lowerStr query) "channel" = false)
    (hcit : containsKw (lowerStr query) "city" = false)
    (hreg : containsKw (lowerStr query) "region" = false)
    (hgen : containsKw (lowerStr query) "gender" = false)
    (hdem : containsKw (lowerStr query) "demograph" = false)
    (hvis : containsKw (lowerStr query) "visit" = false)
    (heng : containsKw (lowerStr query) "engage" = false)
    (hmod : containsKw (lowerStr query) "model" = false)
    (hpre : containsKw (lowerStr query) "predict" = false)
    (hdri : containsKw (lowerStr query) "driver" = false) :
    route (lowerStr query) = (ToolName.get_data_summary, "check context")
      ∧ (mock_process_query reg query).1
        = [Event.kbRetrieve query (reg.get_business_context query),
           Event.toolCall ToolName.get_data_summary] := by
  constructor
  · simp [route, hdel, hcha, hcit, hreg, hgen, hdem, hvis, heng, hmod, hpre, hdri]
  · simp [mock_process_query, route, hdel, hcha, hcit, hreg, hgen, hdem, hvis, heng,
      hmod, hpre, hdri]

/-- Witness for C4: the keyword-free query `"Hello"` dispatches the
data-summary tool. -/
theorem no_keyword_dispatches_summary_witness :
    containsKw (lowerStr "Hello") "delivery" = false
      ∧ containsKw (lowerStr "Hello") "model" = false
      ∧ route (lowerStr "Hello") = (ToolName.get_data_summary, "check context") :=
  ⟨by decide, by decide,
    (no_keyword_dispatches_summary sampleRegistry "Hello" (by decide) (by decide) (by decide)
      (by decide) (by decide) (by decide) (by decide) (by decide) (by decide) (by decide)
      (by decide)).1⟩

/-- C5: End-to-end scenario for `"Does delivery time affect churn?"` in
fallback mode: the knowledge base returns the problem and hypotheses
documents in that order, the delivery-impact tool is invoked, and the final
response is the template instantiated with the plan label
`"investigate delivery times"` and the tool's result — hence it embeds the
plan label, the result text, and the fixed recommendation footer. -/
theorem end_to_end_delivery_churn (reg : ToolRegistry) :
    relevant_docs "Does delivery time affect churn?" = [documents_problem, documents_hypotheses]
      ∧ retrieve_context "Does delivery time affect churn?"
        = documents_problem ++ "\n" ++ documents_hypotheses
      ∧ (mock_process_query reg "Does delivery time affect churn?").1
        = [Event.kbRetrieve "Does delivery time affect churn?"
            (reg.get_business_context "Does delivery time affect churn?"),
           Event.toolCall ToolName.analyze_delivery_impact]
      ∧ (mock_process_query reg "Does delivery time affect churn?").2
        = final_response "investigate delivery times" reg.analyze_delivery_impact
      ∧ SubstrOf "investigate delivery times"
          ((mock_process_query reg "Does delivery time affect churn?").2)
      ∧ SubstrOf reg.analyze_delivery_impact
          ((mock_process_query reg "Does delivery time affect churn?").2)
      ∧ SubstrOf recommendation_footer
          ((mock_process_query reg "Does delivery time affect churn?").2) := by
  have hroute : route (lowerStr "Does delivery time affect churn?")
      = (ToolName.analyze_delivery_impact, "investigate delivery times") := by decide
  have hresp : (mock_process_query reg "Does delivery time affect churn?").2
      = final_response "investigate delivery times" reg.analyze_delivery_impact := by
    simp [mock_process_query, hroute, tool_result]
  refine ⟨by decide, by decide, ?_, hresp, ?_, ?_, ?_⟩
  · simp [mock_process_query, hroute]
  · rw [hresp]; exact (final_response_substr _ _).1
  · rw [hresp]; exact (final_response_substr _ _).2.1
  · rw [hresp]; exact (final_response_substr _ _).2.2

/-- C6: For every query whose lower-cased text matches both the first and
third knowledge-base rules (churn/problem and budget/cost), retrieval
returns the problem document before the constraints document, with at most
the hypotheses document between them — both are present, never only one. -/
theorem kb_two_rules_returns_both (query : String)
    (h1 : (containsKw (lowerStr query) "churn" || containsKw (lowerStr query) "problem") = true)
    (h3 : (containsKw (lowerStr query) "budget" || containsKw (lowerStr query) "cost") = true) :
    ∃ mid, relevant_docs query = documents_problem :: (mid ++ [documents_constraints])
      ∧ (mid = [] ∨ mid = [documents_hypotheses]) := by
  cases h2 : (containsKw (lowerStr query) "delivery" || containsKw (lowerStr query) "discount"
      || containsKw (lowerStr query) "suspect") with
  | false => exact ⟨[], by simp [relevant_docs, h1, h2, h3], Or.inl rfl⟩
  | true => exact ⟨[documents_hypotheses], by simp [relevant_docs, h1, h2, h3], Or.inr rfl⟩

/-- Witness for C6: `"churn budget"` retrieves the problem document followed
by the constraints document. -/
theorem kb_two_rules_returns_both_witness :
    (containsKw (lowerStr "churn budget") "churn" || containsKw (lowerStr "churn budget") "problem") = true
      ∧ (containsKw (lowerStr "churn budget") "budget" || containsKw (lowerStr "churn budget") "cost") = true
      ∧ ∃ mid, relevant_docs "churn budget" = documents_problem :: (mid ++ [documents_constraints])
          ∧ (mid = [] ∨ mid = [documents_hypotheses]) :=
  ⟨by decide, by decide, kb_two_rules_returns_both "churn budget" (by decide) (by decide)⟩

/-- C7: Knowledge-base retrieval always returns at least one document, and
for every query whose lower-cased text matches none of the three keyword
rules it returns exactly the background document. -/
theorem kb_no_rule_returns_background (query : String) :
    relevant_docs query ≠ []
      ∧ ((containsKw (lowerStr query) "churn" || containsKw (lowerStr query) "problem") = false →
         (containsKw (lowerStr query) "delivery" || containsKw (lowerStr query) "discount"
            || containsKw (lowerStr query) "suspect") = false →
         (containsKw (lowerStr query) "budget" || containsKw (lowerStr query) "cost") = false →
         relevant_docs query = [documents_background]) := by
  constructor
  · exact ite_isEmpty_ne_nil _ _
  · intro h1 h2 h3
    simp [relevant_docs, h1, h2, h3]

/-- Witness for C7: `"Hello"` matches no rule and retrieves exactly the
background document. -/
theorem kb_no_rule_returns_background_witness :
    relevant_docs "Hello" ≠ [] ∧ relevant_docs "Hello" = [documents_background] :=
  ⟨(kb_no_rule_returns_background "Hello").1,
    (kb_no_rule_returns_background "Hello").2 (by decide) (by decide) (by decide)⟩

/-- C8: For every query and every behaviour of the tool registry (each
entry returning an arbitrary result string, including error descriptions),
the fallback planner produces the complete templated response embedding the
dispatched tool's result string and the fixed footer — it never fails. -/
theorem planner_always_responds (reg : ToolRegistry) (query : String) :
    (mock_process_query reg query).2
        = final_response (route (lowerStr query)).2 (tool_result reg (route (lowerStr query)).1)
      ∧ SubstrOf (tool_result reg (route (lowerStr query)).1) ((mock_process_query reg query).2)
      ∧ SubstrOf recommendation_footer ((mock_process_query reg query).2) := by
  have hresp : (mock_process_query reg query).2
      = final_response (route (lowerStr query)).2 (tool_result reg (route (lowerStr query)).1) := rfl
  exact ⟨hresp, hresp ▸ (final_response_substr _ _).2.1, hresp ▸ (final_response_substr _ _).2.2⟩

/-- C9: For every query, the fallback planner first invokes the knowledge
base with the raw query, then invokes exactly one tool with no arguments;
and the composed response is independent of the knowledge-base capability,
so the retrieved context is neither passed to the tool nor included in the
response. -/
theorem kb_consulted_first_context_unused (reg : ToolRegistry) (kb2 : String → String)
    (query : String) :
    (mock_process_query reg query).1
        = [Event.kbRetrieve query (reg.get_business_context query),
           Event.toolCall (route (lowerStr query)).1]
      ∧ (mock_process_query { reg with get_business_context := kb2 } query).2
        = (mock_process_query reg query).2 := by
  constructor
  · rfl
  · simp [mock_process_query, tool_result_kb_update]

/-- C10: The plan label is the initial default `"check context"` exactly on
the demographics, engagement, and default (summary) branches; the delivery,
channel, city/region, and predictive-model branches each set their own
distinct label. -/
theorem plan_label_default_branches (query : String) :
    (((route (lowerStr query)).1 = ToolName.analyze_demographics
        ∨ (route (lowerStr query)).1 = ToolName.analyze_engagement
        ∨ (route (lowerStr query)).1 = ToolName.get_data_summary)
      ↔ (route (lowerStr query)).2 = "check context")
      ∧ ((route (lowerStr query)).1 = ToolName.analyze_delivery_impact →
          (route (lowerStr query)).2 = "investigate delivery times")
      ∧ ((route (lowerStr query)).1 = ToolName.analyze_channel_performance →
          (route (lowerStr query)).2 = "check acquisition channels")
      ∧ ((route (lowerStr query)).1 = ToolName.analyze_city_performance →
          (route (lowerStr query)).2 = "check city breaks")
      ∧ ((route (lowerStr query)).1 = ToolName.train_predictive_model →
          (route (lowerStr query)).2 = "train ML model") := by
  unfold route
  split_ifs <;> exact ⟨by decide, by decide, by decide, by decide, by decide⟩

/-- Witness for C10: a demographics query keeps the default plan label. -/
theorem plan_label_default_branches_witness :
    (route (lowerStr "gender breakdown")).2 = "check context" :=
  (plan_label_default_branches "gender breakdown").1.mp (Or.inl (by decide))

end ShopEase
